import Mathlib
set_option autoImplicit false
/-
Verification development for the StudentChatter matchmaking and relay server.
The definitions below are a shallow embedding of the server source:
  - storage.ts (MemStorage): users, messages, rooms, waiting pool
  - routes.ts: the WebSocket handler functions
JavaScript Maps are modelled as association lists in insertion order,
Sets as duplicate-free lists in insertion order, Date values as Nat
timestamps passed in as a `now` parameter, and nanoid as a fresh id drawn
from a counter.  Sockets are kept in a registry keyed by a socket id so
that the aliasing between a handler argument `ws` and the entries of the
`clients` map is explicit.  Outbound `ws.send` calls append to an outbox.
-/
namespace StudentChatter
/-- Association-list lookup; models `Map.get` (keys are unique in a real Map,
so first-match lookup agrees with it). -/
def alookup {K V : Type} [DecidableEq K] : List (K × V) → K → Option V
  | [], _ => none
  | (k0, v0) :: rest, k => if k0 = k then some v0 else alookup rest k
/-- Association-list update; models `Map.set`: replaces the entry in place if
the key is present (keeping its position, as a JS Map does), else appends. -/
def aset {K V : Type} [DecidableEq K] : List (K × V) → K → V → List (K × V)
  | [], k, v => [(k, v)]
  | (k0, v0) :: rest, k, v =>
      if k0 = k then (k, v) :: rest else (k0, v0) :: aset rest k v
/-- Association-list removal; models `Map.delete`. -/
def adel {K V : Type} [DecidableEq K] : List (K × V) → K → List (K × V)
  | [], _ => []
  | (k0, v0) :: rest, k => if k0 = k then rest else (k0, v0) :: adel rest k
/-! ## Data model (shared/schema.ts) -/
/-- User record, after the users table of shared/schema.ts (Date fields as Nat). -/
structure User where
  id : Nat
  username : String
  email : String
  password : String
  university : Option String
  isOnline : Bool
  isVerified : Bool
  verificationToken : Option String
  tokenExpiry : Option Nat
  lastActive : Nat
deriving Repr, DecidableEq
/-- Chat message record (shared/schema.ts `Message`). -/
structure Message where
  id : String
  senderId : Nat
  receiverId : Nat
  text : String
  timestamp : Nat
deriving Repr, DecidableEq
/-- Room record (shared/schema.ts `ChatRoom`); the two-participant tuple is a
two-element list, as the source builds it with `[userId1, userId2]`. -/
structure ChatRoom where
  id : String
  participants : List Nat
  createdAt : Nat
  active : Bool
deriving Repr, DecidableEq
/-! ## MemStorage (storage.ts) -/
/-- In-memory storage state of `MemStorage`.  `nextRoomNum` and `nextMsgNum`
model the fresh ids that `nanoid()` supplies for rooms and messages. -/
structure Storage where
  users : List (Nat × User)
  messages : List Message
  rooms : List (String × ChatRoom)
  waitingPool : List Nat
  nextRoomNum : Nat
  nextMsgNum : Nat
deriving Repr, DecidableEq
/-- MemStorage.getUser. -/
def getUser (st : Storage) (id : Nat) : Option User :=
  alookup st.users id
/-- Models `String.prototype.toLowerCase` as character-wise lowering, written
on the underlying character list so that it evaluates inside the kernel. -/
def strToLower (s : String) : String := ⟨s.data.map Char.toLower⟩
/-- MemStorage.getUserByEmail: first user whose email matches case-insensitively. -/
def getUserByEmail (st : Storage) (email : String) : Option User :=
  (st.users.map Prod.snd).find? (fun u => strToLower u.email == strToLower email)
/-- MemStorage.updateUserOnlineStatus. -/
def updateUserOnlineStatus (st : Storage) (id : Nat) (isOnline : Bool) (now : Nat) : Storage :=
  match alookup st.users id with
  | none => st
  | some u => { st with users := aset st.users id { u with isOnline := isOnline, lastActive := now } }
/-- MemStorage.createMessage: fresh id, push onto the message log. -/
def createMessage (st : Storage) (senderId receiverId : Nat) (text : String) (now : Nat) :
    Message × Storage :=
  let m : Message :=
    { id := "m" ++ toString st.nextMsgNum, senderId := senderId, receiverId := receiverId,
      text := text, timestamp := now }
  (m, { st with messages := st.messages ++ [m], nextMsgNum := st.nextMsgNum + 1 })
/-- MemStorage.getRoomById. -/
def getRoomById (st : Storage) (roomId : String) : Option ChatRoom :=
  alookup st.rooms roomId
/-- MemStorage.getRoomByParticipant: first active room containing the user. -/
def getRoomByParticipant (st : Storage) (userId : Nat) : Option ChatRoom :=
  (st.rooms.map Prod.snd).find? (fun r => r.active && r.participants.contains userId)
/-- MemStorage.closeRoom: if the room exists its active flag is set false in
place; written as an entry-wise map, which is what updating the single
matching key of a unique-key Map amounts to. -/
def closeRoom (st : Storage) (roomId : String) : Storage :=
  let rooms1 := st.rooms.map
    (fun p => (p.1, if p.1 = roomId then { p.2 with active := false } else p.2))
  { st with rooms := rooms1 }
/-- MemStorage.createRoom: first closes every existing room containing either
user (the `for ... closeRoom` loop), then inserts a fresh active room. -/
def createRoom (st : Storage) (userId1 userId2 : Nat) (now : Nat) : ChatRoom × Storage :=
  let rooms1 := st.rooms.map
    (fun p => (p.1,
      if userId1 ∈ p.2.participants ∨ userId2 ∈ p.2.participants
      then { p.2 with active := false } else p.2))
  let room : ChatRoom :=
    { id := "r" ++ toString st.nextRoomNum, participants := [userId1, userId2],
      createdAt := now, active := true }
  (room, { st with rooms := aset rooms1 room.id room, nextRoomNum := st.nextRoomNum + 1 })
/-- MemStorage.getWaitingUsers: `Array.from(Set)` in insertion order. -/
def getWaitingUsers (st : Storage) : List Nat :=
  st.waitingPool
/-- MemStorage.addToWaitingPool (`Set.add`). -/
def addToWaitingPool (st : Storage) (userId : Nat) : Storage :=
  { st with waitingPool :=
      if userId ∈ st.waitingPool then st.waitingPool else st.waitingPool ++ [userId] }
/-- MemStorage.removeFromWaitingPool (`Set.delete`; the pool never holds
duplicates, so deletion is a filter). -/
def removeFromWaitingPool (st : Storage) (userId : Nat) : Storage :=
  { st with waitingPool := st.waitingPool.filter (fun v => v ≠ userId) }
/-- MemStorage.verifyUserEmail: an already-verified user succeeds at once;
otherwise the stored token must match and must not be past its expiry. -/
def verifyUserEmail (st : Storage) (email token : String) (now : Nat) : Bool × Storage :=
  match getUserByEmail st email with
  | none => (false, st)
  | some u =>
    if u.isVerified then (true, st)
    else if u.verificationToken ≠ some token then (false, st)
    else
      let accept : Bool × Storage :=
        let u1 : User := { u with isVerified := true, verificationToken := none, tokenExpiry := none }
        (true, { st with users := aset st.users u.id u1 })
      match u.tokenExpiry with
      | some e => if now > e then (false, st) else accept
      | none => accept
/-- POST /api/verify-token (routes.ts), after schema validation: 200 with a
success message when `verifyUserEmail` accepts, else 400. -/
def verifyTokenEndpoint (st : Storage) (email token : String) (now : Nat) :
    Nat × String × Storage :=
  let r := verifyUserEmail st email token now
  if r.1 then (200, "Email verified successfully", r.2)
  else (400, "Invalid or expired verification token", r.2)
/-! ## WebSocket server state (routes.ts) -/
/-- Per-connection mutable state of a `SocketClient`, together with the
`isAuthenticated` closure variable of the connection handler (`authFlag`)
and the transport liveness (`isOpen`, i.e. `readyState === OPEN`). -/
structure Sock where
  userId : Option Nat := none
  roomId : Option String := none
  isOpen : Bool := true
  authFlag : Bool := false
deriving Repr, DecidableEq
/-- Outbound wire messages the server sends (the `type` discriminator of each
`ws.send(JSON.stringify(...))` in routes.ts). -/
inductive ServerMsg : Type where
  | errorMsg (message : String)
  | authSuccess (user : Option User)
  | waitingMsg (message : String)
  | matched (roomId : String) (partnerId : Nat) (partnerUsername : String)
      (partnerUniversity : Option String)
  | chat (m : Message)
  | signalMsg (userId : Nat) (signal : String)
  | partnerLeft
  | leaveWaitingSuccess
deriving Repr, DecidableEq
/-- Whole-server state: storage, the socket objects (keyed by a socket id, so
that the aliasing between a handler argument `ws` and the values of the
`clients` map is explicit), the `clients` map of routes.ts (user id to the
socket currently registered for it), and the log of sent messages. -/
structure ServerState where
  store : Storage
  socks : List (Nat × Sock)
  clients : List (Nat × Nat)
  outbox : List (Nat × ServerMsg)
deriving Repr, DecidableEq
/-- Socket lookup by socket id. -/
def sockOf (s : ServerState) (sid : Nat) : Option Sock :=
  alookup s.socks sid
/-- ws.send: append an outbound message addressed to the given socket. -/
def send (s : ServerState) (sid : Nat) (m : ServerMsg) : ServerState :=
  { s with outbox := s.outbox ++ [(sid, m)] }
/-- Mutate one socket object in place (a JS field assignment on `ws`). -/
def modifySock (s : ServerState) (sid : Nat) (f : Sock → Sock) : ServerState :=
  match alookup s.socks sid with
  | some k => { s with socks := aset s.socks sid (f k) }
  | none => s
/-- JS truthiness of an optional number (`!x` is true for undefined and 0). -/
def truthyNat : Option Nat → Option Nat
  | some n => if n = 0 then none else some n
  | none => none
/-- JS truthiness of an optional string (`!x` is true for undefined and ""). -/
def truthyStr : Option String → Option String
  | some r => if r = "" then none else some r
  | none => none
/-- The guard `!ws.userId || ws.userId !== userId`, in positive form. -/
def wsAuthOk (k : Sock) (userId : Nat) : Bool :=
  match truthyNat k.userId with
  | some w => w == userId
  | none => false
/-- The guard `!ws.roomId || ws.roomId !== roomId`, in positive form. -/
def wsRoomOk (k : Sock) (roomId : String) : Bool :=
  match truthyStr k.roomId with
  | some r => r == roomId
  | none => false
/-- `const partnerId = room.participants.find(id => id !== userId)` followed by
the truthiness test `if (!partnerId)`. -/
def jsPartner (participants : List Nat) (userId : Nat) : Option Nat :=
  truthyNat (participants.find? (fun i => i != userId))
/-- handleAuth (routes.ts): bind the identity, register the client and mark the
user online, but only when the user exists and is verified; otherwise send an
error and bind nothing. -/
def handleAuth (s : ServerState) (sid uid now : Nat) : ServerState :=
  match sockOf s sid with
  | none => s
  | some _ =>
    match getUser s.store uid with
    | none => send s sid (.errorMsg "Authentication failed: User not found")
    | some user =>
      if !user.isVerified then
        send s sid (.errorMsg "Email not verified. Please verify your email before using the chat.")
      else
        let s1 := modifySock s sid (fun k => { k with userId := some uid })
        let s2 := { s1 with clients := aset s1.clients uid sid }
        { s2 with store := updateUserOnlineStatus s2.store uid true now }
/-- The `auth` branch of the connection message handler: it calls handleAuth,
then unconditionally sets the `isAuthenticated` flag and unconditionally sends
`auth-success` carrying `storage.getUser(data.userId)`. -/
def processAuthMessage (s : ServerState) (sid uid now : Nat) : ServerState :=
  let s1 := handleAuth s sid uid now
  let s2 := modifySock s1 sid (fun k => { k with authFlag := true })
  send s2 sid (.authSuccess (getUser s2.store uid))
/-- matchUsers (routes.ts): remove both users from the pool, create the room,
then look up the two users and the two registered clients; only when all four
lookups succeed are the room bindings set and the `match` events sent. -/
def matchUsers (s : ServerState) (userId1 userId2 now : Nat) : ServerState :=
  let st1 := removeFromWaitingPool s.store userId1
  let st2 := removeFromWaitingPool st1 userId2
  let rs := createRoom st2 userId1 userId2 now
  let room := rs.1
  let s3 : ServerState := { s with store := rs.2 }
  match getUser s3.store userId1, getUser s3.store userId2 with
  | some user1, some user2 =>
    match alookup s3.clients userId1, alookup s3.clients userId2 with
    | some sid1, some sid2 =>
      match sockOf s3 sid1, sockOf s3 sid2 with
      | some _, some _ =>
        let s4 := modifySock s3 sid1 (fun k => { k with roomId := some room.id })
        let s5 := modifySock s4 sid2 (fun k => { k with roomId := some room.id })
        let s6 := send s5 sid1 (.matched room.id user2.id user2.username user2.university)
        send s6 sid2 (.matched room.id user1.id user1.username user1.university)
      | _, _ => s3
    | _, _ => s3
  | _, _ => s3
/-- handleJoinWaiting (routes.ts): after the auth guard, add the user to the
pool, snapshot the other waiting users, and either match with one of them
(`pick` models the random index draw) or answer `waiting`. -/
def handleJoinWaiting (s : ServerState) (sid uid pick now : Nat) : ServerState :=
  match sockOf s sid with
  | none => s
  | some k =>
    if wsAuthOk k uid then
      let st1 := addToWaitingPool s.store uid
      let s1 : ServerState := { s with store := st1 }
      let avail := (getWaitingUsers st1).filter (fun i => i != uid)
      if avail.length > 0 then
        let partnerId := avail.getD (pick % avail.length) 0
        matchUsers s1 uid partnerId now
      else
        send s1 sid (.waitingMsg "Waiting for a match")
    else
      send s sid (.errorMsg "Authentication required")
/-- handleLeaveWaiting (routes.ts): after the auth guard, remove the user from
the pool and (on every call) send `leave-waiting-success`. -/
def handleLeaveWaiting (s : ServerState) (sid uid : Nat) : ServerState :=
  match sockOf s sid with
  | none => s
  | some k =>
    if wsAuthOk k uid then
      send { s with store := removeFromWaitingPool s.store uid } sid .leaveWaitingSuccess
    else
      send s sid (.errorMsg "Authentication required")
/-- handleMessage (routes.ts): guards, room and partner resolution, then one
`createMessage` whose result is echoed to the sender and, if the partner
client is registered and open, forwarded to the partner. -/
def handleMessage (s : ServerState) (sid uid : Nat) (rid text : String) (now : Nat) :
    ServerState :=
  match sockOf s sid with
  | none => s
  | some k =>
    if !(wsAuthOk k uid && wsRoomOk k rid) then
      send s sid (.errorMsg "Invalid user or room")
    else
      match getRoomById s.store rid with
      | none => send s sid (.errorMsg "Room not found or inactive")
      | some room =>
        if !room.active then send s sid (.errorMsg "Room not found or inactive")
        else
          match jsPartner room.participants uid with
          | none => send s sid (.errorMsg "Partner not found")
          | some partnerId =>
            let ms := createMessage s.store uid partnerId text now
            let s1 : ServerState := { s with store := ms.2 }
            let s2 := send s1 sid (.chat ms.1)
            match alookup s2.clients partnerId with
            | some psid =>
              match sockOf s2 psid with
              | some pk => if pk.isOpen then send s2 psid (.chat ms.1) else s2
              | none => s2
            | none => s2
/-- handleSignal (routes.ts): same guards as handleMessage, then the opaque
signal is forwarded to the partner only (no echo, no storage write). -/
def handleSignal (s : ServerState) (sid uid : Nat) (rid sig : String) : ServerState :=
  match sockOf s sid with
  | none => s
  | some k =>
    if !(wsAuthOk k uid && wsRoomOk k rid) then
      send s sid (.errorMsg "Invalid user or room")
    else
      match getRoomById s.store rid with
      | none => send s sid (.errorMsg "Room not found or inactive")
      | some room =>
        if !room.active then send s sid (.errorMsg "Room not found or inactive")
        else
          match jsPartner room.participants uid with
          | none => send s sid (.errorMsg "Partner not found")
          | some partnerId =>
            match alookup s.clients partnerId with
            | some psid =>
              match sockOf s psid with
              | some pk => if pk.isOpen then send s psid (.signalMsg uid sig) else s
              | none => s
            | none => s
/-- handleNext (routes.ts): after the auth guard, close the current room if
any, notify the partner and clear the room bindings, then rejoin the pool via
handleJoinWaiting. -/
def handleNext (s : ServerState) (sid uid pick now : Nat) : ServerState :=
  match sockOf s sid with
  | none => s
  | some k =>
    if wsAuthOk k uid then
      let s1 :=
        match truthyStr k.roomId with
        | some rid =>
          let sa : ServerState := { s with store := closeRoom s.store rid }
          let sb :=
            match getRoomById sa.store rid with
            | some room =>
              match jsPartner room.participants uid with
              | some partnerId =>
                match alookup sa.clients partnerId with
                | some psid =>
                  match sockOf sa psid with
                  | some pk =>
                    if pk.isOpen then
                      modifySock (send sa psid .partnerLeft) psid
                        (fun q => { q with roomId := none })
                    else sa
                  | none => sa
                | none => sa
              | none => sa
            | none => sa
          modifySock sb sid (fun q => { q with roomId := none })
        | none => s
      handleJoinWaiting s1 sid uid pick now
    else
      send s sid (.errorMsg "Authentication required")
/-- handleDisconnect (routes.ts): mark the user offline, purge the pool, close
the room (notifying an open partner and clearing the partner room binding) and
drop the `clients` entry.  Note that neither `ws.userId` nor `ws.roomId` of
the disconnecting socket is cleared. -/
def handleDisconnect (s : ServerState) (sid now : Nat) : ServerState :=
  match sockOf s sid with
  | none => s
  | some k =>
    match truthyNat k.userId with
    | none => s
    | some uid =>
      let st1 := updateUserOnlineStatus s.store uid false now
      let st2 := removeFromWaitingPool st1 uid
      let s2 : ServerState := { s with store := st2 }
      let s3 :=
        match truthyStr k.roomId with
        | some rid =>
          let sa : ServerState := { s2 with store := closeRoom s2.store rid }
          match getRoomById sa.store rid with
          | some room =>
            match jsPartner room.participants uid with
            | some partnerId =>
              match alookup sa.clients partnerId with
              | some psid =>
                match sockOf sa psid with
                | some pk =>
                  if pk.isOpen then
                    modifySock (send sa psid .partnerLeft) psid
                      (fun q => { q with roomId := none })
                  else sa
                | none => sa
              | none => sa
            | none => sa
          | none => sa
        | none => s2
      { s3 with clients := adel s3.clients uid }
/-! ## The transition system -/
/-- One observable server transition: a new transport connection, an inbound
message of one of the seven handled types, or a transport close (which runs
the disconnect cleanup and marks the socket closed).  Direct invocation of a
handler over-approximates the dispatcher of routes.ts, whose extra
authentication gate only blocks calls that the handler guards also reject. -/
inductive Step : ServerState → ServerState → Prop where
  | connect (s : ServerState) (sid : Nat) (h : alookup s.socks sid = none) :
      Step s { s with socks := aset s.socks sid {} }
  | auth (s : ServerState) (sid uid now : Nat) :
      Step s (processAuthMessage s sid uid now)
  | joinWaiting (s : ServerState) (sid uid pick now : Nat) :
      Step s (handleJoinWaiting s sid uid pick now)
  | leaveWaiting (s : ServerState) (sid uid : Nat) :
      Step s (handleLeaveWaiting s sid uid)
  | message (s : ServerState) (sid uid : Nat) (rid text : String) (now : Nat) :
      Step s (handleMessage s sid uid rid text now)
  | signal (s : ServerState) (sid uid : Nat) (rid sig : String) :
      Step s (handleSignal s sid uid rid sig)
  | next (s : ServerState) (sid uid pick now : Nat) :
      Step s (handleNext s sid uid pick now)
  | disconnect (s : ServerState) (sid now : Nat) :
      Step s (handleDisconnect s sid now)
  | closed (s : ServerState) (sid now : Nat) :
      Step s (modifySock (handleDisconnect s sid now) sid (fun k => { k with isOpen := false }))
/-- Initial server state: user accounts are supplied by the external
registration collaborator; every core-owned structure starts empty. -/
def initState (us : List (Nat × User)) : ServerState :=
  { store := { users := us, messages := [], rooms := [], waitingPool := [],
               nextRoomNum := 0, nextMsgNum := 0 },
    socks := [], clients := [], outbox := [] }
/-- Reachability from the initial state by server transitions. -/
def Reached (us : List (Nat × User)) (s : ServerState) : Prop :=
  Relation.ReflTransGen Step (initState us) s
/-! ## Demo fixtures used by the concrete counterexamples and witnesses -/
/-- Verified demo account. -/
def mkUser (i : Nat) (nm : String) : User :=
  { id := i, username := nm, email := nm ++ "@x.edu", password := "p", university := some "U",
    isOnline := false, isVerified := true, verificationToken := none, tokenExpiry := none,
    lastActive := 0 }
/-- Two registered, verified accounts. -/
def demoUsers : List (Nat × User) := [(1, mkUser 1 "alice"), (2, mkUser 2 "bob")]
def t0 : ServerState := initState demoUsers
/-- State after socket 0 connects. -/
def t1 : ServerState := { t0 with socks := aset t0.socks 0 {} }
/-- State after socket 1 connects. -/
def t2 : ServerState := { t1 with socks := aset t1.socks 1 {} }
/-- State after user 1 authenticates on socket 0. -/
def t3 : ServerState := processAuthMessage t2 0 1 5
/-- State after user 2 authenticates on socket 1. -/
def t4 : ServerState := processAuthMessage t3 1 2 5
/-- State after user 1 joins the waiting pool (no candidate: waits). -/
def t5 : ServerState := handleJoinWaiting t4 0 1 0 5
/-- State after user 2 joins the waiting pool and is matched with user 1 into
room r0. -/
def t6 : ServerState := handleJoinWaiting t5 1 2 0 5
/-- State after user 1, still bound to active room r0, sends join-waiting
again. -/
def t7 : ServerState := handleJoinWaiting t6 0 1 0 5
/-! ## Claim C1 -/
/-- Reachable-shaped state for the C1 scenario: user 1 is authenticated on
socket 0 and registered; user 2 is in the waiting pool but has no entry in
the client registry (its connection is gone). -/
def c1S : ServerState :=
  { store := { users := demoUsers, messages := [], rooms := [], waitingPool := [2],
               nextRoomNum := 0, nextMsgNum := 0 },
    socks := [(0, { userId := some 1, authFlag := true })],
    clients := [(1, 0)], outbox := [] }
/-! ## Claim C3 -/
/-- An un-authenticated socket 0 on a server with no registered users. -/
def c3S : ServerState := { initState [] with socks := [(0, ({} : Sock))] }
/-- The two account records as they stand after authentication in state t5. -/
def aliceOnline : User := { mkUser 1 "alice" with isOnline := true, lastActive := 5 }
def bobOnline : User := { mkUser 2 "bob" with isOnline := true, lastActive := 5 }
/-! ## Claim C5 -/
/-- Waiting user 1, authenticated on socket 0. -/
def c5S : ServerState :=
  { store := { users := demoUsers, messages := [], rooms := [], waitingPool := [1],
               nextRoomNum := 0, nextMsgNum := 0 },
    socks := [(0, { userId := some 1, authFlag := true })],
    clients := [(1, 0)], outbox := [] }
/-! ## Claim C2 -/
/-- Room-table exclusivity: no user identity is a participant of two distinct
rooms that are both active. -/
def RoomsOK (rooms : List (String × ChatRoom)) : Prop :=
  ∀ k1 k2 r1 r2, alookup rooms k1 = some r1 → alookup rooms k2 = some r2 →
    k1 ≠ k2 → r1.active = true → r2.active = true →
    ∀ u, u ∈ r1.participants → u ∉ r2.participants

theorem alookup_aset {K V : Type} [DecidableEq K] (m : List (K × V)) (k k' : K) (v : V) :
    alookup (aset m k v) k' = if k = k' then some v else alookup m k' := by
  induction m with
  | nil => simp [aset, alookup]
  | cons p rest ih =>
      obtain ⟨k0, v0⟩ := p
      by_cases h0 : k0 = k
      · subst h0
        by_cases h1 : k0 = k'
        · subst h1; simp [aset, alookup]
        · simp [aset, alookup, h1]
      · by_cases h1 : k0 = k'
        · subst h1
          simp [aset, alookup, h0, Ne.symm h0]
        · simp [aset, alookup, h0, h1, ih]
theorem aset_of_alookup_eq {K V : Type} [DecidableEq K] (m : List (K × V)) (k : K) (v : V)
    (h : alookup m k = some v) : aset m k v = m := by
  induction m with
  | nil => simp [alookup] at h
  | cons p rest ih =>
      obtain ⟨k0, v0⟩ := p
      by_cases h0 : k0 = k
      · subst h0
        simp [alookup] at h
        simp [aset, h]
      · simp [alookup, h0] at h
        simp [aset, h0, ih h]
theorem alookup_adel_ne {K V : Type} [DecidableEq K] (m : List (K × V)) (k k' : K)
    (h : k' ≠ k) : alookup (adel m k) k' = alookup m k' := by
  induction m with
  | nil => simp [adel]
  | cons p rest ih =>
      obtain ⟨k0, v0⟩ := p
      by_cases h0 : k0 = k
      · subst h0
        simp [adel, alookup, Ne.symm h]
      · simp [adel, alookup, h0, ih]
theorem adel_of_alookup_none {K V : Type} [DecidableEq K] (m : List (K × V)) (k : K)
    (h : alookup m k = none) : adel m k = m := by
  induction m with
  | nil => simp [adel]
  | cons p rest ih =>
      obtain ⟨k0, v0⟩ := p
      by_cases h0 : k0 = k
      · subst h0; simp [alookup] at h
      · simp [alookup, h0] at h
        simp [adel, h0, ih h]
theorem alookup_none_of_not_mem_keys {K V : Type} [DecidableEq K] (m : List (K × V)) (k : K)
    (h : k ∉ m.map Prod.fst) : alookup m k = none := by
  induction m with
  | nil => simp [alookup]
  | cons p rest ih =>
      obtain ⟨k0, v0⟩ := p
      simp only [List.map_cons, List.mem_cons] at h
      push_neg at h
      have h0 : ¬ k0 = k := Ne.symm h.1
      simp [alookup, h0, ih h.2]
theorem alookup_adel_self_nodup {K V : Type} [DecidableEq K] (m : List (K × V)) (k : K)
    (h : (m.map Prod.fst).Nodup) : alookup (adel m k) k = none := by
  induction m with
  | nil => simp [adel, alookup]
  | cons p rest ih =>
      obtain ⟨k0, v0⟩ := p
      simp only [List.map_cons, List.nodup_cons] at h
      by_cases h0 : k0 = k
      · subst h0
        simp only [adel, if_pos rfl]
        exact alookup_none_of_not_mem_keys rest k0 h.1
      · simp [adel, h0, alookup, ih h.2]
theorem alookup_map_entry {K V : Type} [DecidableEq K] (f : K → V → V)
    (m : List (K × V)) (k : K) :
    alookup (m.map (fun p => (p.1, f p.1 p.2))) k = (alookup m k).map (f k) := by
  induction m with
  | nil => simp [alookup]
  | cons p rest ih =>
      obtain ⟨k0, v0⟩ := p
      by_cases h0 : k0 = k
      · subst h0; simp [alookup]
      · simp [alookup, h0, ih]
/-! ## Frame lemmas -/
@[simp] theorem send_store (s : ServerState) (sid : Nat) (m : ServerMsg) :
    (send s sid m).store = s.store := rfl
@[simp] theorem send_socks (s : ServerState) (sid : Nat) (m : ServerMsg) :
    (send s sid m).socks = s.socks := rfl
@[simp] theorem send_clients (s : ServerState) (sid : Nat) (m : ServerMsg) :
    (send s sid m).clients = s.clients := rfl
@[simp] theorem send_outbox (s : ServerState) (sid : Nat) (m : ServerMsg) :
    (send s sid m).outbox = s.outbox ++ [(sid, m)] := rfl
@[simp] theorem modifySock_store (s : ServerState) (sid : Nat) (f : Sock → Sock) :
    (modifySock s sid f).store = s.store := by
  unfold modifySock; split <;> rfl
@[simp] theorem modifySock_clients (s : ServerState) (sid : Nat) (f : Sock → Sock) :
    (modifySock s sid f).clients = s.clients := by
  unfold modifySock; split <;> rfl
@[simp] theorem modifySock_outbox (s : ServerState) (sid : Nat) (f : Sock → Sock) :
    (modifySock s sid f).outbox = s.outbox := by
  unfold modifySock; split <;> rfl
@[simp] theorem sockOf_send (s : ServerState) (sid : Nat) (m : ServerMsg) (x : Nat) :
    sockOf (send s sid m) x = sockOf s x := rfl
theorem sockOf_modifySock (s : ServerState) (sid : Nat) (f : Sock → Sock) (x : Nat) :
    sockOf (modifySock s sid f) x =
      if sid = x then (sockOf s sid).map f else sockOf s x := by
  unfold modifySock sockOf
  cases hk : alookup s.socks sid with
  | none =>
      by_cases hx : sid = x
      · subst hx; simp [hk]
      · simp [hx]
  | some k => simp [alookup_aset, hk]
@[simp] theorem updateUserOnlineStatus_waitingPool (st : Storage) (id : Nat) (b : Bool) (now : Nat) :
    (updateUserOnlineStatus st id b now).waitingPool = st.waitingPool := by
  unfold updateUserOnlineStatus; split <;> rfl
@[simp] theorem updateUserOnlineStatus_rooms (st : Storage) (id : Nat) (b : Bool) (now : Nat) :
    (updateUserOnlineStatus st id b now).rooms = st.rooms := by
  unfold updateUserOnlineStatus; split <;> rfl
@[simp] theorem updateUserOnlineStatus_messages (st : Storage) (id : Nat) (b : Bool) (now : Nat) :
    (updateUserOnlineStatus st id b now).messages = st.messages := by
  unfold updateUserOnlineStatus; split <;> rfl
@[simp] theorem updateUserOnlineStatus_nextRoomNum (st : Storage) (id : Nat) (b : Bool) (now : Nat) :
    (updateUserOnlineStatus st id b now).nextRoomNum = st.nextRoomNum := by
  unfold updateUserOnlineStatus; split <;> rfl
@[simp] theorem updateUserOnlineStatus_nextMsgNum (st : Storage) (id : Nat) (b : Bool) (now : Nat) :
    (updateUserOnlineStatus st id b now).nextMsgNum = st.nextMsgNum := by
  unfold updateUserOnlineStatus; split <;> rfl
@[simp] theorem removeFromWaitingPool_users (st : Storage) (u : Nat) :
    (removeFromWaitingPool st u).users = st.users := rfl
@[simp] theorem removeFromWaitingPool_rooms (st : Storage) (u : Nat) :
    (removeFromWaitingPool st u).rooms = st.rooms := rfl
@[simp] theorem removeFromWaitingPool_messages (st : Storage) (u : Nat) :
    (removeFromWaitingPool st u).messages = st.messages := rfl
@[simp] theorem removeFromWaitingPool_nextRoomNum (st : Storage) (u : Nat) :
    (removeFromWaitingPool st u).nextRoomNum = st.nextRoomNum := rfl
@[simp] theorem removeFromWaitingPool_nextMsgNum (st : Storage) (u : Nat) :
    (removeFromWaitingPool st u).nextMsgNum = st.nextMsgNum := rfl
@[simp] theorem addToWaitingPool_users (st : Storage) (u : Nat) :
    (addToWaitingPool st u).users = st.users := rfl
@[simp] theorem addToWaitingPool_rooms (st : Storage) (u : Nat) :
    (addToWaitingPool st u).rooms = st.rooms := rfl
@[simp] theorem addToWaitingPool_nextRoomNum (st : Storage) (u : Nat) :
    (addToWaitingPool st u).nextRoomNum = st.nextRoomNum := rfl
@[simp] theorem closeRoom_users (st : Storage) (rid : String) :
    (closeRoom st rid).users = st.users := rfl
@[simp] theorem closeRoom_waitingPool (st : Storage) (rid : String) :
    (closeRoom st rid).waitingPool = st.waitingPool := rfl
@[simp] theorem closeRoom_messages (st : Storage) (rid : String) :
    (closeRoom st rid).messages = st.messages := rfl
@[simp] theorem closeRoom_nextRoomNum (st : Storage) (rid : String) :
    (closeRoom st rid).nextRoomNum = st.nextRoomNum := rfl
@[simp] theorem closeRoom_nextMsgNum (st : Storage) (rid : String) :
    (closeRoom st rid).nextMsgNum = st.nextMsgNum := rfl
@[simp] theorem createRoom_users (st : Storage) (a b now : Nat) :
    (createRoom st a b now).2.users = st.users := rfl
@[simp] theorem createRoom_waitingPool (st : Storage) (a b now : Nat) :
    (createRoom st a b now).2.waitingPool = st.waitingPool := rfl
@[simp] theorem createRoom_messages (st : Storage) (a b now : Nat) :
    (createRoom st a b now).2.messages = st.messages := rfl
@[simp] theorem createMessage_users (st : Storage) (a b : Nat) (text : String) (now : Nat) :
    (createMessage st a b text now).2.users = st.users := rfl
@[simp] theorem createMessage_rooms (st : Storage) (a b : Nat) (text : String) (now : Nat) :
    (createMessage st a b text now).2.rooms = st.rooms := rfl
@[simp] theorem createMessage_waitingPool (st : Storage) (a b : Nat) (text : String) (now : Nat) :
    (createMessage st a b text now).2.waitingPool = st.waitingPool := rfl
/-! ## Characterisation lemmas for the room table -/
theorem getRoomById_closeRoom (st : Storage) (rid x : String) :
    getRoomById (closeRoom st rid) x =
      (getRoomById st x).map (fun v => if x = rid then { v with active := false } else v) := by
  unfold getRoomById closeRoom
  exact alookup_map_entry (fun a v => if a = rid then { v with active := false } else v) st.rooms x
theorem closeRoom_closeRoom (st : Storage) (rid : String) :
    closeRoom (closeRoom st rid) rid = closeRoom st rid := by
  unfold closeRoom
  simp only [List.map_map]
  congr 1
  apply List.map_congr_left
  intro p _
  by_cases hp : p.1 = rid <;> simp [Function.comp, hp]
theorem createRoom_lookup (st : Storage) (a b now : Nat) (k : String) :
    getRoomById (createRoom st a b now).2 k =
      if ("r" ++ toString st.nextRoomNum) = k then some (createRoom st a b now).1
      else (getRoomById st k).map
        (fun v => if a ∈ v.participants ∨ b ∈ v.participants then { v with active := false } else v) := by
  unfold getRoomById createRoom
  simp only [alookup_aset]
  split
  · rfl
  · exact alookup_map_entry
      (fun _ v => if a ∈ v.participants ∨ b ∈ v.participants then { v with active := false } else v)
      st.rooms k
theorem removeFromWaitingPool_idem (st : Storage) (u : Nat) :
    removeFromWaitingPool (removeFromWaitingPool st u) u = removeFromWaitingPool st u := by
  unfold removeFromWaitingPool
  simp [List.filter_filter]
theorem updateUserOnlineStatus_idem (st : Storage) (id : Nat) (b : Bool) (now : Nat) :
    updateUserOnlineStatus (updateUserOnlineStatus st id b now) id b now =
      updateUserOnlineStatus st id b now := by
  unfold updateUserOnlineStatus
  cases hu : alookup st.users id with
  | none => simp [hu]
  | some u =>
      have h2 : alookup (aset st.users id { u with isOnline := b, lastActive := now }) id =
          some { u with isOnline := b, lastActive := now } := by
        simp [alookup_aset]
      simp only [hu, h2]
      congr 1
      exact aset_of_alookup_eq _ _ _ h2
theorem updateUserOnlineStatus_removeFromWaitingPool (st : Storage) (id u : Nat) (b : Bool) (now : Nat) :
    updateUserOnlineStatus (removeFromWaitingPool st u) id b now =
      removeFromWaitingPool (updateUserOnlineStatus st id b now) u := by
  unfold updateUserOnlineStatus removeFromWaitingPool
  cases hu : alookup st.users id with
  | none => simp [hu]
  | some x => simp [hu]
theorem updateUserOnlineStatus_closeRoom (st : Storage) (id : Nat) (b : Bool) (now : Nat) (rid : String) :
    updateUserOnlineStatus (closeRoom st rid) id b now =
      closeRoom (updateUserOnlineStatus st id b now) rid := by
  unfold updateUserOnlineStatus closeRoom
  cases hu : alookup st.users id with
  | none => simp [hu]
  | some x => simp [hu]
theorem removeFromWaitingPool_closeRoom (st : Storage) (u : Nat) (rid : String) :
    removeFromWaitingPool (closeRoom st rid) u = closeRoom (removeFromWaitingPool st u) rid := rfl
/-! ## Claim C9 -/
/-- C9: `closeRoom` only flips the active flag of the named room: the record
is not deleted (`getRoomById` still answers, with `active = false`), its id,
participant pair and creation timestamp are unchanged, every other room is
untouched, closing twice equals closing once, and no other storage component
changes. -/
theorem claim9_closeRoom (st : Storage) (rid : String) (r : ChatRoom)
    (h : getRoomById st rid = some r) :
    getRoomById (closeRoom st rid) rid = some { r with active := false } ∧
    (∀ rid', rid' ≠ rid → getRoomById (closeRoom st rid) rid' = getRoomById st rid') ∧
    closeRoom (closeRoom st rid) rid = closeRoom st rid ∧
    (closeRoom st rid).users = st.users ∧
    (closeRoom st rid).messages = st.messages ∧
    (closeRoom st rid).waitingPool = st.waitingPool ∧
    ({ r with active := false } : ChatRoom).id = r.id ∧
    ({ r with active := false } : ChatRoom).participants = r.participants ∧
    ({ r with active := false } : ChatRoom).createdAt = r.createdAt := by
  refine ⟨?_, ?_, closeRoom_closeRoom st rid, rfl, rfl, rfl, rfl, rfl, rfl⟩
  · rw [getRoomById_closeRoom, h]
    simp
  · intro rid' hne
    rw [getRoomById_closeRoom]
    cases hx : getRoomById st rid' with
    | none => simp
    | some v => simp [hne]
/-- Witness for C9 at a concrete one-room storage. -/
theorem claim9_witness :
    getRoomById
      (closeRoom
        { users := demoUsers, messages := [], rooms := [("r0", ⟨"r0", [1, 2], 4, true⟩)],
          waitingPool := [], nextRoomNum := 1, nextMsgNum := 0 } "r0") "r0" =
      some ⟨"r0", [1, 2], 4, false⟩ := by
  exact (claim9_closeRoom _ "r0" ⟨"r0", [1, 2], 4, true⟩ (by decide)).1
/-! ## Claim C10 -/
/-- C10: for an already-verified account `verifyUserEmail` returns true
whatever token is supplied (the stored token is never compared), and the
verify-token endpoint therefore reports success (HTTP 200); for an unverified
account it returns true exactly when the supplied token equals the stored one
and the stored expiry, if any, has not passed. -/
theorem claim10_verify (st : Storage) (now : Nat) (email token : String) (u : User)
    (hu : getUserByEmail st email = some u) :
    (u.isVerified = true → (verifyUserEmail st email token now).1 = true) ∧
    (u.isVerified = false →
      ((verifyUserEmail st email token now).1 = true ↔
        (u.verificationToken = some token ∧ ∀ e, u.tokenExpiry = some e → now ≤ e))) ∧
    ((verifyTokenEndpoint st email token now).1 = 200 ↔
      (verifyUserEmail st email token now).1 = true) := by
  refine ⟨?_, ?_, ?_⟩
  · intro hv
    unfold verifyUserEmail
    simp [hu, hv]
  · intro hv
    unfold verifyUserEmail
    by_cases ht : u.verificationToken = some token
    · cases he : u.tokenExpiry with
      | none => simp [hu, hv, ht, he]
      | some e =>
          by_cases hexp : now > e
          · simp only [hu, hv, ht, he]
            simp [Nat.not_le.mpr hexp, hexp]
          · simp only [hu, hv, ht, he]
            simp [Nat.le_of_not_lt hexp, hexp]
    · simp [hu, hv, ht]
  · unfold verifyTokenEndpoint
    cases hb : (verifyUserEmail st email token now).1 <;> simp [hb]
/-- Witness for C10: an already-verified stored account accepts an arbitrary
token, and the endpoint answers 200. -/
theorem claim10_witness :
    (verifyUserEmail
      { users := demoUsers, messages := [], rooms := [], waitingPool := [],
        nextRoomNum := 0, nextMsgNum := 0 } "alice@x.edu" "whatever-token-here" 3).1 = true := by
  exact (claim10_verify _ 3 "alice@x.edu" "whatever-token-here" (mkUser 1 "alice")
    (by decide)).1 (by decide)
/-- C1 counterexample: user 2 is waiting but unreachable (absent from the
client registry); user 1 sends join-waiting.  The pairing is NOT aborted: an
active room binding both identities is committed, the reachable user 1 is not
returned to the waiting pool (the pool ends empty), and no retry or
notification happens (outbox and sockets unchanged). -/
theorem claim1_cex :
    alookup c1S.clients 2 = none ∧
    2 ∈ c1S.store.waitingPool ∧
    (handleJoinWaiting c1S 0 1 0 7).store.waitingPool = [] ∧
    getRoomById (handleJoinWaiting c1S 0 1 0 7).store "r0" =
      some { id := "r0", participants := [1, 2], createdAt := 7, active := true } ∧
    (handleJoinWaiting c1S 0 1 0 7).outbox = c1S.outbox ∧
    (handleJoinWaiting c1S 0 1 0 7).socks = c1S.socks := by
  decide
theorem matchUsers_unreachable (s : ServerState) (u1 u2 now : Nat)
    (h2 : alookup s.clients u2 = none) :
    matchUsers s u1 u2 now =
      { s with store := (createRoom (removeFromWaitingPool
          (removeFromWaitingPool s.store u1) u2) u1 u2 now).2 } := by
  simp only [matchUsers]
  split
  next user1 user2 hg1 hg2 =>
    split
    next sid1 sid2 hc1 hc2 => rw [h2] at hc2; exact absurd hc2 (by simp)
    next hns => rfl
  next hnu => rfl
/-- C1 amended: when the second identity is unreachable in the client
registry at commit time, `matchUsers` still removes both identities from the
pool and still commits the new active room for the pair; it sends nothing,
binds no room on any socket, does not return the reachable identity to the
pool, and does not retry. -/
theorem claim1_amended (s : ServerState) (u1 u2 now : Nat)
    (h2 : alookup s.clients u2 = none) :
    (matchUsers s u1 u2 now).store.waitingPool =
      (s.store.waitingPool.filter (fun v => v ≠ u1)).filter (fun v => v ≠ u2) ∧
    getRoomById (matchUsers s u1 u2 now).store ("r" ++ toString s.store.nextRoomNum) =
      some { id := "r" ++ toString s.store.nextRoomNum, participants := [u1, u2],
             createdAt := now, active := true } ∧
    (matchUsers s u1 u2 now).outbox = s.outbox ∧
    (matchUsers s u1 u2 now).socks = s.socks ∧
    (matchUsers s u1 u2 now).clients = s.clients ∧
    (matchUsers s u1 u2 now).store.users = s.store.users := by
  have hroom : getRoomById (createRoom (removeFromWaitingPool
      (removeFromWaitingPool s.store u1) u2) u1 u2 now).2
      ("r" ++ toString s.store.nextRoomNum) =
      some { id := "r" ++ toString s.store.nextRoomNum, participants := [u1, u2],
             createdAt := now, active := true } := by
    rw [createRoom_lookup]
    simp [createRoom]
  rw [matchUsers_unreachable s u1 u2 now h2]
  refine ⟨?_, hroom, rfl, rfl, rfl, rfl⟩
  simp [removeFromWaitingPool]
/-- Witness for C1 amended, at the concrete C1 scenario state. -/
theorem claim1_amended_witness :
    (matchUsers c1S 1 2 7).store.waitingPool =
      (c1S.store.waitingPool.filter (fun v => v ≠ 1)).filter (fun v => v ≠ 2) ∧
    getRoomById (matchUsers c1S 1 2 7).store ("r" ++ toString c1S.store.nextRoomNum) =
      some { id := "r" ++ toString c1S.store.nextRoomNum, participants := [1, 2],
             createdAt := 7, active := true } ∧
    (matchUsers c1S 1 2 7).outbox = c1S.outbox ∧
    (matchUsers c1S 1 2 7).socks = c1S.socks ∧
    (matchUsers c1S 1 2 7).clients = c1S.clients ∧
    (matchUsers c1S 1 2 7).store.users = c1S.store.users := by
  exact claim1_amended c1S 1 2 7 (by decide)
/-- C3 counterexample: an `auth` message for an unknown user id gets the
expected error, and no identity is bound — but the connection does NOT stay
in the unauthenticated Connected state: the handler still flips the local
authenticated flag and additionally sends `auth-success` (with an absent
user) right after the error. -/
theorem claim3_cex :
    (processAuthMessage c3S 0 5 9).outbox =
      [(0, ServerMsg.errorMsg "Authentication failed: User not found"),
       (0, ServerMsg.authSuccess none)] ∧
    sockOf (processAuthMessage c3S 0 5 9) 0 =
      some { userId := none, roomId := none, isOpen := true, authFlag := true } ∧
    alookup (processAuthMessage c3S 0 5 9).clients 5 = none := by
  decide
/-- C3 amended: the identity is bound (socket field set, client registry
entry added, user marked online) only when the lookup succeeds and the
account is verified; on a failed or unverified lookup an error is sent and no
identity is bound — but in every case, success or failure, the handler also
flips the per-connection authenticated flag and sends `auth-success` (with
the absent or unverified user on failure). -/
theorem claim3_amended (s : ServerState) (sid uid now : Nat) (k : Sock)
    (hk : sockOf s sid = some k) :
    (∀ u, getUser s.store uid = some u → u.isVerified = true →
      alookup (processAuthMessage s sid uid now).clients uid = some sid ∧
      sockOf (processAuthMessage s sid uid now) sid =
        some { k with userId := some uid, authFlag := true } ∧
      (processAuthMessage s sid uid now).outbox = s.outbox ++
        [(sid, ServerMsg.authSuccess (some { u with isOnline := true, lastActive := now }))]) ∧
    (getUser s.store uid = none →
      (processAuthMessage s sid uid now).clients = s.clients ∧
      (processAuthMessage s sid uid now).store = s.store ∧
      sockOf (processAuthMessage s sid uid now) sid = some { k with authFlag := true } ∧
      (processAuthMessage s sid uid now).outbox = s.outbox ++
        [(sid, ServerMsg.errorMsg "Authentication failed: User not found"),
         (sid, ServerMsg.authSuccess none)]) ∧
    (∀ u, getUser s.store uid = some u → u.isVerified = false →
      (processAuthMessage s sid uid now).clients = s.clients ∧
      (processAuthMessage s sid uid now).store = s.store ∧
      sockOf (processAuthMessage s sid uid now) sid = some { k with authFlag := true } ∧
      (processAuthMessage s sid uid now).outbox = s.outbox ++
        [(sid, ServerMsg.errorMsg
            "Email not verified. Please verify your email before using the chat."),
         (sid, ServerMsg.authSuccess (some u))]) := by
  have hk' : alookup s.socks sid = some k := hk
  refine ⟨?_, ?_, ?_⟩
  · intro u hg hv
    have hg' : alookup s.store.users uid = some u := hg
    unfold processAuthMessage handleAuth modifySock updateUserOnlineStatus sockOf getUser
    simp [hk', hg', hv, alookup_aset]
  · intro hg
    have hg' : alookup s.store.users uid = none := hg
    unfold processAuthMessage handleAuth modifySock sockOf getUser
    simp [hk', hg', alookup_aset]
  · intro u hg hv
    have hg' : alookup s.store.users uid = some u := hg
    unfold processAuthMessage handleAuth modifySock sockOf getUser
    simp [hk', hg', hv, alookup_aset]
/-- Witness for C3 amended: user 1 authenticates successfully on socket 0. -/
theorem claim3_witness :
    sockOf t2 0 = some ({} : Sock) ∧
    alookup (processAuthMessage t2 0 1 5).clients 1 = some 0 ∧
    sockOf (processAuthMessage t2 0 1 5) 0 =
      some { ({} : Sock) with userId := some 1, authFlag := true } := by
  have h := claim3_amended t2 0 1 5 {} (by decide)
  have hsucc := h.1 (mkUser 1 "alice") (by decide) (by decide)
  exact ⟨by decide, hsucc.1, hsucc.2.1⟩
/-! ## Claim C8 -/
/-- C8 counterexample: in the matched state t6, user 1 sends a `signal`
naming a room id that does not exist in the room table.  The sender does get
an error and nobody else gets anything, but the error message is the guard
message "Invalid user or room", not one of the "room not found" class (the
handler rejects on the socket room-binding check before ever consulting the
room table). -/
theorem claim8_cex :
    getRoomById t6.store "nope" = none ∧
    (handleSignal t6 0 1 "nope" "sdp").outbox =
      t6.outbox ++ [(0, ServerMsg.errorMsg "Invalid user or room")] ∧
    (handleSignal t6 0 1 "nope" "sdp").store = t6.store ∧
    (handleSignal t6 0 1 "nope" "sdp").socks = t6.socks ∧
    (handleSignal t6 0 1 "nope" "sdp").clients = t6.clients := by
  decide
/-- C8 amended: a `signal` naming a room id absent from the room table
produces exactly one outbound message, an error to the sender (so the partner
receives nothing and no state changes), whose text is "Invalid user or room"
when the guard against the socket room binding fails (always the case for a
room id that was never created) and "Room not found or inactive" otherwise. -/
theorem claim8_amended (s : ServerState) (sid uid : Nat) (rid sig : String) (k : Sock)
    (hk : sockOf s sid = some k) (hr : getRoomById s.store rid = none) :
    ∃ msg, handleSignal s sid uid rid sig = send s sid (ServerMsg.errorMsg msg) ∧
      (msg = "Invalid user or room" ∨ msg = "Room not found or inactive") := by
  unfold handleSignal
  simp only [hk]
  by_cases hg : (wsAuthOk k uid && wsRoomOk k rid) = true
  · refine ⟨"Room not found or inactive", ?_, Or.inr rfl⟩
    simp [hg, hr]
  · refine ⟨"Invalid user or room", ?_, Or.inl rfl⟩
    simp only [Bool.not_eq_true] at hg
    simp [hg]
/-- Witness for C8 amended at the concrete t6 scenario. -/
theorem claim8_witness :
    ∃ msg, handleSignal t6 0 1 "nope" "sdp" = send t6 0 (ServerMsg.errorMsg msg) ∧
      (msg = "Invalid user or room" ∨ msg = "Room not found or inactive") := by
  exact claim8_amended t6 0 1 "nope" "sdp"
    { userId := some 1, roomId := some "r0", isOpen := true, authFlag := true }
    (by decide) (by decide)
/-! ## Claim C7 -/
/-- C7: an accepted chat message in an active room, with the partner client
registered and open, is echoed to the sender and forwarded to the partner as
the very same canonical message record (same id, same timestamp), which is
also the record appended to the message log. -/
theorem claim7_echo (s : ServerState) (sid uid : Nat) (rid text : String) (now : Nat)
    (k : Sock) (room : ChatRoom) (partnerId psid : Nat) (pk : Sock)
    (hk : sockOf s sid = some k)
    (hauth : wsAuthOk k uid = true) (hrm : wsRoomOk k rid = true)
    (hr : getRoomById s.store rid = some room) (hact : room.active = true)
    (hp : jsPartner room.participants uid = some partnerId)
    (hpc : alookup s.clients partnerId = some psid)
    (hpk : sockOf s psid = some pk) (hopen : pk.isOpen = true) :
    (handleMessage s sid uid rid text now).outbox = s.outbox ++
      [(sid, ServerMsg.chat
          { id := "m" ++ toString s.store.nextMsgNum, senderId := uid,
            receiverId := partnerId, text := text, timestamp := now }),
       (psid, ServerMsg.chat
          { id := "m" ++ toString s.store.nextMsgNum, senderId := uid,
            receiverId := partnerId, text := text, timestamp := now })] ∧
    (handleMessage s sid uid rid text now).store.messages = s.store.messages ++
      [{ id := "m" ++ toString s.store.nextMsgNum, senderId := uid,
         receiverId := partnerId, text := text, timestamp := now }] := by
  have hpk' : alookup s.socks psid = some pk := hpk
  have hk' : alookup s.socks sid = some k := hk
  unfold handleMessage createMessage sockOf
  simp [hk', hauth, hrm, hr, hact, hp, hpc, hpk', hopen]
/-- Witness for C7 in the matched state t6: user 1 sends "hi". -/
theorem claim7_witness :
    (handleMessage t6 0 1 "r0" "hi" 8).outbox = t6.outbox ++
      [(0, ServerMsg.chat
          { id := "m" ++ toString t6.store.nextMsgNum, senderId := 1,
            receiverId := 2, text := "hi", timestamp := 8 }),
       (1, ServerMsg.chat
          { id := "m" ++ toString t6.store.nextMsgNum, senderId := 1,
            receiverId := 2, text := "hi", timestamp := 8 })] ∧
    (handleMessage t6 0 1 "r0" "hi" 8).store.messages = t6.store.messages ++
      [{ id := "m" ++ toString t6.store.nextMsgNum, senderId := 1, receiverId := 2,
         text := "hi", timestamp := 8 }] := by
  exact claim7_echo t6 0 1 "r0" "hi" 8
    { userId := some 1, roomId := some "r0", isOpen := true, authFlag := true }
    { id := "r0", participants := [2, 1], createdAt := 5, active := true } 2 1
    { userId := some 2, roomId := some "r0", isOpen := true, authFlag := true }
    (by decide) (by decide) (by decide) (by decide) (by decide) (by decide)
    (by decide) (by decide) (by decide)
/-! ## Claim C6 -/
theorem filter_addToWaitingPool (st : Storage) (uid : Nat) :
    (addToWaitingPool st uid).waitingPool.filter (fun i => i != uid) =
      st.waitingPool.filter (fun i => i != uid) := by
  unfold addToWaitingPool
  by_cases h : uid ∈ st.waitingPool
  · simp [h]
  · simp [h, List.filter_append]
theorem matchUsers_success (s : ServerState) (u1 u2 now : Nat) (user1 user2 : User)
    (sid1 sid2 : Nat) (k1 k2 : Sock)
    (hu1 : getUser s.store u1 = some user1) (hu2 : getUser s.store u2 = some user2)
    (hc1 : alookup s.clients u1 = some sid1) (hc2 : alookup s.clients u2 = some sid2)
    (hk1 : sockOf s sid1 = some k1) (hk2 : sockOf s sid2 = some k2) :
    (matchUsers s u1 u2 now).store =
      (createRoom (removeFromWaitingPool (removeFromWaitingPool s.store u1) u2) u1 u2 now).2 ∧
    (matchUsers s u1 u2 now).clients = s.clients ∧
    (matchUsers s u1 u2 now).outbox = s.outbox ++
      [(sid1, ServerMsg.matched ("r" ++ toString s.store.nextRoomNum)
          user2.id user2.username user2.university),
       (sid2, ServerMsg.matched ("r" ++ toString s.store.nextRoomNum)
          user1.id user1.username user1.university)] := by
  have hu1' : alookup s.store.users u1 = some user1 := hu1
  have hu2' : alookup s.store.users u2 = some user2 := hu2
  have hk1' : alookup s.socks sid1 = some k1 := hk1
  have hk2' : alookup s.socks sid2 = some k2 := hk2
  simp only [matchUsers]
  simp [getUser, sockOf, createRoom, hu1', hu2', hc1, hc2, hk1', hk2']
/-- C6: when a user joins the waiting pool and exactly one other user W is
waiting, the outcome is always the match with W: the two `match` events are
sent naming each other, the committed room pairs exactly the two of them, W
differs from the joining user (no self-match), and no `waiting` response is
produced (the outbox gains exactly the two `match` events) — for every value
of the random draw. -/
theorem claim6_single_candidate (s : ServerState) (sid uid w pick now : Nat)
    (k : Sock) (u1 u2 : User) (sidU sidW : Nat) (kU kW : Sock)
    (hk : sockOf s sid = some k) (hauth : wsAuthOk k uid = true)
    (hpool : s.store.waitingPool.filter (fun i => i != uid) = [w])
    (hu1 : getUser s.store uid = some u1) (hu2 : getUser s.store w = some u2)
    (hc1 : alookup s.clients uid = some sidU) (hc2 : alookup s.clients w = some sidW)
    (hk1 : sockOf s sidU = some kU) (hk2 : sockOf s sidW = some kW) :
    uid ≠ w ∧
    getRoomById (handleJoinWaiting s sid uid pick now).store
        ("r" ++ toString s.store.nextRoomNum) =
      some { id := "r" ++ toString s.store.nextRoomNum, participants := [uid, w],
             createdAt := now, active := true } ∧
    (handleJoinWaiting s sid uid pick now).outbox = s.outbox ++
      [(sidU, ServerMsg.matched ("r" ++ toString s.store.nextRoomNum)
          u2.id u2.username u2.university),
       (sidW, ServerMsg.matched ("r" ++ toString s.store.nextRoomNum)
          u1.id u1.username u1.university)] := by
  have hmem : w ∈ s.store.waitingPool.filter (fun i => i != uid) := by
    rw [hpool]; exact List.mem_singleton.mpr rfl
  have hne : (w != uid) = true := (List.mem_filter.mp hmem).2
  have hne' : uid ≠ w := fun h => by simp [h] at hne
  have havail : (getWaitingUsers (addToWaitingPool s.store uid)).filter (fun i => i != uid)
      = [w] := by
    unfold getWaitingUsers
    rw [filter_addToWaitingPool, hpool]
  set s1 : ServerState := { s with store := addToWaitingPool s.store uid } with hs1
  have hjw : handleJoinWaiting s sid uid pick now = matchUsers s1 uid w now := by
    unfold handleJoinWaiting
    simp [hk, hauth, havail, Nat.mod_one, hs1]
  obtain ⟨hst, hcl, hob⟩ := matchUsers_success s1 uid w now u1 u2 sidU sidW kU kW
    (by simpa [getUser] using hu1) (by simpa [getUser] using hu2) hc1 hc2 hk1 hk2
  refine ⟨hne', ?_, ?_⟩
  · rw [hjw, hst, createRoom_lookup]
    simp [createRoom]
  · rw [hjw, hob]
    simp
/-- Witness for C6 at the concrete state t5: user 2 joins while exactly user 1
waits; the draw value 3 is arbitrary. -/
theorem claim6_witness :
    2 ≠ 1 ∧
    getRoomById (handleJoinWaiting t5 1 2 3 5).store
        ("r" ++ toString t5.store.nextRoomNum) =
      some { id := "r" ++ toString t5.store.nextRoomNum, participants := [2, 1],
             createdAt := 5, active := true } ∧
    (handleJoinWaiting t5 1 2 3 5).outbox = t5.outbox ++
      [(1, ServerMsg.matched ("r" ++ toString t5.store.nextRoomNum)
          aliceOnline.id aliceOnline.username aliceOnline.university),
       (0, ServerMsg.matched ("r" ++ toString t5.store.nextRoomNum)
          bobOnline.id bobOnline.username bobOnline.university)] := by
  exact claim6_single_candidate t5 1 2 1 3 5
    { userId := some 2, roomId := none, isOpen := true, authFlag := true }
    bobOnline aliceOnline 1 0
    { userId := some 2, roomId := none, isOpen := true, authFlag := true }
    { userId := some 1, roomId := none, isOpen := true, authFlag := true }
    (by decide) (by decide) (by decide) (by decide) (by decide) (by decide)
    (by decide) (by decide) (by decide)
/-! ## Claim C4 -/
/-- C4 counterexample: a real trace (connect both sockets, authenticate both
users, user 1 waits, user 2 joins and is matched, then user 1 sends
join-waiting again) reaches a state in which user 1 sits in the waiting pool
while still being a participant of an active room. -/
theorem claim4_cex :
    Reached demoUsers t7 ∧
    1 ∈ t7.store.waitingPool ∧
    (getRoomByParticipant t7.store 1).isSome = true := by
  refine ⟨?_, by decide, by decide⟩
  have h0 : Reached demoUsers t0 := Relation.ReflTransGen.refl
  have h1 : Reached demoUsers t1 := h0.tail (Step.connect t0 0 (by decide))
  have h2 : Reached demoUsers t2 := h1.tail (Step.connect t1 1 (by decide))
  have h3 : Reached demoUsers t3 := h2.tail (Step.auth t2 0 1 5)
  have h4 : Reached demoUsers t4 := h3.tail (Step.auth t3 1 2 5)
  have h5 : Reached demoUsers t5 := h4.tail (Step.joinWaiting t4 0 1 0 5)
  have h6 : Reached demoUsers t6 := h5.tail (Step.joinWaiting t5 1 2 0 5)
  exact h6.tail (Step.joinWaiting t6 0 1 0 5)
theorem matchUsers_waitingPool (s : ServerState) (u1 u2 now : Nat) :
    (matchUsers s u1 u2 now).store.waitingPool =
      (s.store.waitingPool.filter (fun v => v ≠ u1)).filter (fun v => v ≠ u2) := by
  simp only [matchUsers]
  repeat' split
  all_goals simp [removeFromWaitingPool]
theorem mem_addToWaitingPool (st : Storage) (u v : Nat)
    (h : v ∈ (addToWaitingPool st u).waitingPool) : v ∈ st.waitingPool ∨ v = u := by
  unfold addToWaitingPool at h
  by_cases hm : u ∈ st.waitingPool
  · simp only [hm, if_pos] at h
    exact Or.inl h
  · simp only [hm, if_neg, not_false_iff] at h
    rcases List.mem_append.mp h with h | h
    · exact Or.inl h
    · exact Or.inr (List.mem_singleton.mp h)
/-- C4 amended: join-waiting adds only the requesting identity to the pool,
and only when the acting connection is authenticated as it; no active-room
check is performed, so (per the counterexample) a user still bound to an
active room is added all the same. -/
theorem claim4_amended (s : ServerState) (sid uid pick now v : Nat) (k : Sock)
    (hk : sockOf s sid = some k)
    (hv : v ∈ (handleJoinWaiting s sid uid pick now).store.waitingPool) :
    v ∈ s.store.waitingPool ∨ (v = uid ∧ wsAuthOk k uid = true) := by
  unfold handleJoinWaiting at hv
  simp only [hk] at hv
  by_cases ha : wsAuthOk k uid = true
  · simp only [ha, if_true] at hv
    split at hv
    · rw [matchUsers_waitingPool] at hv
      have hv1 := List.mem_filter.mp (List.mem_filter.mp hv).1
      rcases mem_addToWaitingPool s.store uid v hv1.1 with h | h
      · exact Or.inl h
      · exact Or.inr ⟨h, ha⟩
    · simp only [send_store] at hv
      rcases mem_addToWaitingPool s.store uid v hv with h | h
      · exact Or.inl h
      · exact Or.inr ⟨h, ha⟩
  · simp only [Bool.not_eq_true] at ha
    simp only [ha, Bool.false_eq_true, if_false, send_store] at hv
    exact Or.inl hv
/-- Witness for C4 amended: user 1 joins at state t4 and indeed lands in the
pool through the authenticated branch. -/
theorem claim4_witness :
    sockOf t4 0 = some { userId := some 1, roomId := none, isOpen := true, authFlag := true } ∧
    1 ∈ (handleJoinWaiting t4 0 1 0 5).store.waitingPool ∧
    (1 ∈ t4.store.waitingPool ∨
      (1 = 1 ∧ wsAuthOk { userId := some 1, roomId := none, isOpen := true, authFlag := true }
        1 = true)) := by
  refine ⟨by decide, by decide, ?_⟩
  exact claim4_amended t4 0 1 0 5 1
    { userId := some 1, roomId := none, isOpen := true, authFlag := true }
    (by decide) (by decide)
/-- C5 counterexample: the second `leave-waiting` sends a second
`leave-waiting-success`, and the second `disconnect` (from the matched state
t6, where the first disconnect already closed the room) notifies the partner
with `partner-left` a second time — so the second call does produce visible
side effects. -/
theorem claim5_cex :
    (handleLeaveWaiting (handleLeaveWaiting c5S 0 1) 0 1).outbox =
      [(0, ServerMsg.leaveWaitingSuccess), (0, ServerMsg.leaveWaitingSuccess)] ∧
    ((handleDisconnect (handleDisconnect t6 0 3) 0 3).outbox).drop t6.outbox.length =
      [(1, ServerMsg.partnerLeft), (1, ServerMsg.partnerLeft)] := by
  decide
theorem jsPartner_ne (l : List Nat) (uid p : Nat) (h : jsPartner l uid = some p) :
    p ≠ uid ∧ p ≠ 0 := by
  unfold jsPartner truthyNat at h
  cases hf : l.find? (fun i => i != uid) with
  | none => rw [hf] at h; exact absurd h (by simp)
  | some q =>
      rw [hf] at h
      by_cases hq : q = 0
      · simp [hq] at h
      · simp only [hq] at h
        obtain rfl : q = p := by simpa using h
        have := List.find?_some hf
        exact ⟨by simpa using this, hq⟩
theorem chatRoom_flip_self (r : ChatRoom) (h : r.active = false) :
    { r with active := false } = r := by
  cases r
  simp_all
theorem closeRoom_lookup_inactive (st : Storage) (rid : String) (room : ChatRoom)
    (h : getRoomById (closeRoom st rid) rid = some room) : room.active = false := by
  rw [getRoomById_closeRoom] at h
  cases hx : getRoomById st rid with
  | none => rw [hx] at h; exact absurd h (by simp)
  | some v =>
      rw [hx] at h
      have h' : ({ v with active := false } : ChatRoom) = room := by simpa using h
      rw [← h']
theorem removeFromWaitingPool_updateUserOnlineStatus_idem (st : Storage) (uid now : Nat) :
    removeFromWaitingPool (updateUserOnlineStatus
        (removeFromWaitingPool (updateUserOnlineStatus st uid false now) uid)
        uid false now) uid =
      removeFromWaitingPool (updateUserOnlineStatus st uid false now) uid := by
  rw [updateUserOnlineStatus_removeFromWaitingPool, updateUserOnlineStatus_idem,
    removeFromWaitingPool_idem]
theorem getRoomById_closeRoom_cleanup (st : Storage) (uid now : Nat) (rid y : String) :
    getRoomById (closeRoom (removeFromWaitingPool
        (updateUserOnlineStatus st uid false now) uid) rid) y =
      getRoomById (closeRoom st rid) y := by
  unfold getRoomById closeRoom
  simp
theorem closeRoom_cleanup_idem (st : Storage) (uid now : Nat) (rid : String) :
    closeRoom (removeFromWaitingPool (updateUserOnlineStatus
        (closeRoom (removeFromWaitingPool (updateUserOnlineStatus st uid false now) uid) rid)
        uid false now) uid) rid =
      closeRoom (removeFromWaitingPool (updateUserOnlineStatus st uid false now) uid) rid := by
  rw [updateUserOnlineStatus_closeRoom, removeFromWaitingPool_closeRoom, closeRoom_closeRoom,
    removeFromWaitingPool_updateUserOnlineStatus_idem]
theorem cleanup_closeRoom_cleanup (st : Storage) (uid now : Nat) (rid : String) :
    removeFromWaitingPool (updateUserOnlineStatus
        (closeRoom (removeFromWaitingPool (updateUserOnlineStatus st uid false now) uid) rid)
        uid false now) uid =
      closeRoom (removeFromWaitingPool (updateUserOnlineStatus st uid false now) uid) rid := by
  rw [updateUserOnlineStatus_closeRoom, removeFromWaitingPool_closeRoom,
    removeFromWaitingPool_updateUserOnlineStatus_idem]
theorem disconnect_eq_of_no_sock (x : ServerState) (sid2 now : Nat)
    (hk : sockOf x sid2 = none) : handleDisconnect x sid2 now = x := by
  unfold handleDisconnect
  simp only [hk]
theorem disconnect_eq_of_no_user (x : ServerState) (sid2 now : Nat) (k : Sock)
    (hk : sockOf x sid2 = some k) (hu : truthyNat k.userId = none) :
    handleDisconnect x sid2 now = x := by
  unfold handleDisconnect
  simp only [hk, hu]
theorem disconnect_eq_no_room (x : ServerState) (sid2 now uid : Nat) (k : Sock)
    (hk : sockOf x sid2 = some k) (hu : truthyNat k.userId = some uid)
    (hr : truthyStr k.roomId = none) :
    handleDisconnect x sid2 now =
      { store := removeFromWaitingPool (updateUserOnlineStatus x.store uid false now) uid,
        socks := x.socks, clients := adel x.clients uid, outbox := x.outbox } := by
  unfold handleDisconnect
  simp only [hk, hu, hr]
theorem disconnect_eq_room_none (x : ServerState) (sid2 now uid : Nat) (k : Sock)
    (rid : String)
    (hk : sockOf x sid2 = some k) (hu : truthyNat k.userId = some uid)
    (hr : truthyStr k.roomId = some rid)
    (hroom : getRoomById (closeRoom x.store rid) rid = none) :
    handleDisconnect x sid2 now =
      { store := closeRoom (removeFromWaitingPool
          (updateUserOnlineStatus x.store uid false now) uid) rid,
        socks := x.socks, clients := adel x.clients uid, outbox := x.outbox } := by
  unfold handleDisconnect
  simp only [hk, hu, hr, getRoomById_closeRoom_cleanup, hroom]
theorem disconnect_eq_partner_none (x : ServerState) (sid2 now uid : Nat) (k : Sock)
    (rid : String) (room : ChatRoom)
    (hk : sockOf x sid2 = some k) (hu : truthyNat k.userId = some uid)
    (hr : truthyStr k.roomId = some rid)
    (hroom : getRoomById (closeRoom x.store rid) rid = some room)
    (hp : jsPartner room.participants uid = none) :
    handleDisconnect x sid2 now =
      { store := closeRoom (removeFromWaitingPool
          (updateUserOnlineStatus x.store uid false now) uid) rid,
        socks := x.socks, clients := adel x.clients uid, outbox := x.outbox } := by
  unfold handleDisconnect
  simp only [hk, hu, hr, getRoomById_closeRoom_cleanup, hroom, hp]
theorem disconnect_eq_client_none (x : ServerState) (sid2 now uid : Nat) (k : Sock)
    (rid : String) (room : ChatRoom) (pid : Nat)
    (hk : sockOf x sid2 = some k) (hu : truthyNat k.userId = some uid)
    (hr : truthyStr k.roomId = some rid)
    (hroom : getRoomById (closeRoom x.store rid) rid = some room)
    (hp : jsPartner room.participants uid = some pid)
    (hc : alookup x.clients pid = none) :
    handleDisconnect x sid2 now =
      { store := closeRoom (removeFromWaitingPool
          (updateUserOnlineStatus x.store uid false now) uid) rid,
        socks := x.socks, clients := adel x.clients uid, outbox := x.outbox } := by
  unfold handleDisconnect
  simp only [hk, hu, hr, getRoomById_closeRoom_cleanup, hroom, hp, hc]
theorem disconnect_eq_sock_none (x : ServerState) (sid2 now uid : Nat) (k : Sock)
    (rid : String) (room : ChatRoom) (pid psid : Nat)
    (hk : sockOf x sid2 = some k) (hu : truthyNat k.userId = some uid)
    (hr : truthyStr k.roomId = some rid)
    (hroom : getRoomById (closeRoom x.store rid) rid = some room)
    (hp : jsPartner room.participants uid = some pid)
    (hc : alookup x.clients pid = some psid)
    (hs : sockOf x psid = none) :
    handleDisconnect x sid2 now =
      { store := closeRoom (removeFromWaitingPool
          (updateUserOnlineStatus x.store uid false now) uid) rid,
        socks := x.socks, clients := adel x.clients uid, outbox := x.outbox } := by
  have hs' : alookup x.socks psid = none := hs
  have hk' : alookup x.socks sid2 = some k := hk
  unfold handleDisconnect sockOf
  simp only [hk', hu, hr, getRoomById_closeRoom_cleanup, hroom, hp, hc, hs']
theorem disconnect_eq_closed_partner (x : ServerState) (sid2 now uid : Nat) (k : Sock)
    (rid : String) (room : ChatRoom) (pid psid : Nat) (pk : Sock)
    (hk : sockOf x sid2 = some k) (hu : truthyNat k.userId = some uid)
    (hr : truthyStr k.roomId = some rid)
    (hroom : getRoomById (closeRoom x.store rid) rid = some room)
    (hp : jsPartner room.participants uid = some pid)
    (hc : alookup x.clients pid = some psid)
    (hs : sockOf x psid = some pk) (hopen : pk.isOpen = false) :
    handleDisconnect x sid2 now =
      { store := closeRoom (removeFromWaitingPool
          (updateUserOnlineStatus x.store uid false now) uid) rid,
        socks := x.socks, clients := adel x.clients uid, outbox := x.outbox } := by
  have hs' : alookup x.socks psid = some pk := hs
  have hk' : alookup x.socks sid2 = some k := hk
  unfold handleDisconnect sockOf
  simp only [hk', hu, hr, getRoomById_closeRoom_cleanup, hroom, hp, hc, hs', hopen]
  simp
theorem disconnect_eq_open_partner (x : ServerState) (sid2 now uid : Nat) (k : Sock)
    (rid : String) (room : ChatRoom) (pid psid : Nat) (pk : Sock)
    (hk : sockOf x sid2 = some k) (hu : truthyNat k.userId = some uid)
    (hr : truthyStr k.roomId = some rid)
    (hroom : getRoomById (closeRoom x.store rid) rid = some room)
    (hp : jsPartner room.participants uid = some pid)
    (hc : alookup x.clients pid = some psid)
    (hs : sockOf x psid = some pk) (hopen : pk.isOpen = true) :
    handleDisconnect x sid2 now =
      { store := closeRoom (removeFromWaitingPool
          (updateUserOnlineStatus x.store uid false now) uid) rid,
        socks := aset x.socks psid { pk with roomId := none },
        clients := adel x.clients uid,
        outbox := x.outbox ++ [(psid, ServerMsg.partnerLeft)] } := by
  have hs' : alookup x.socks psid = some pk := hs
  have hk' : alookup x.socks sid2 = some k := hk
  unfold handleDisconnect modifySock sockOf
  simp only [hk', hu, hr, getRoomById_closeRoom_cleanup, hroom, hp, hc, hs', hopen]
  simp [hs', hopen]
theorem handleLeaveWaiting_twice (s : ServerState) (sid uid : Nat) :
    (handleLeaveWaiting (handleLeaveWaiting s sid uid) sid uid).store =
      (handleLeaveWaiting s sid uid).store ∧
    (handleLeaveWaiting (handleLeaveWaiting s sid uid) sid uid).socks =
      (handleLeaveWaiting s sid uid).socks ∧
    (handleLeaveWaiting (handleLeaveWaiting s sid uid) sid uid).clients =
      (handleLeaveWaiting s sid uid).clients := by
  cases hk : sockOf s sid with
  | none =>
      have h1 : handleLeaveWaiting s sid uid = s := by
        unfold handleLeaveWaiting; simp only [hk]
      rw [h1, h1]
      exact ⟨rfl, rfl, rfl⟩
  | some k =>
      by_cases ha : wsAuthOk k uid = true
      · have hgen : ∀ y : ServerState, sockOf y sid = some k →
            handleLeaveWaiting y sid uid =
              send { y with store := removeFromWaitingPool y.store uid } sid
                ServerMsg.leaveWaitingSuccess := by
          intro y hy
          unfold handleLeaveWaiting
          simp only [hy, ha, if_true]
        have h1 := hgen s hk
        have hk2 : sockOf (handleLeaveWaiting s sid uid) sid = some k := by
          rw [h1]; exact hk
        have h2 := hgen _ hk2
        rw [h2, h1]
        refine ⟨?_, rfl, rfl⟩
        simp [removeFromWaitingPool_idem]
      · have ha' : wsAuthOk k uid = false := by simpa using ha
        have hgen : ∀ y : ServerState, sockOf y sid = some k →
            handleLeaveWaiting y sid uid =
              send y sid (ServerMsg.errorMsg "Authentication required") := by
          intro y hy
          unfold handleLeaveWaiting
          simp only [hy, ha', Bool.false_eq_true, if_false]
        have h1 := hgen s hk
        have hk2 : sockOf (handleLeaveWaiting s sid uid) sid = some k := by
          rw [h1]; exact hk
        have h2 := hgen _ hk2
        rw [h2, h1]
        exact ⟨rfl, rfl, rfl⟩
theorem handleDisconnect_twice (t : ServerState) (sid2 now : Nat)
    (hnd : (t.clients.map Prod.fst).Nodup) :
    (handleDisconnect (handleDisconnect t sid2 now) sid2 now).store =
      (handleDisconnect t sid2 now).store ∧
    (handleDisconnect (handleDisconnect t sid2 now) sid2 now).socks =
      (handleDisconnect t sid2 now).socks ∧
    (handleDisconnect (handleDisconnect t sid2 now) sid2 now).clients =
      (handleDisconnect t sid2 now).clients := by
  cases hk : sockOf t sid2 with
  | none =>
      have h1 := disconnect_eq_of_no_sock t sid2 now hk
      rw [h1, h1]
      exact ⟨rfl, rfl, rfl⟩
  | some k =>
      cases hu : truthyNat k.userId with
      | none =>
          have h1 := disconnect_eq_of_no_user t sid2 now k hk hu
          rw [h1, h1]
          exact ⟨rfl, rfl, rfl⟩
      | some uid =>
          have hadel : adel (adel t.clients uid) uid = adel t.clients uid :=
            adel_of_alookup_none _ _ (alookup_adel_self_nodup t.clients uid hnd)
          cases hr : truthyStr k.roomId with
          | none =>
              have h1 := disconnect_eq_no_room t sid2 now uid k hk hu hr
              have hk2 : sockOf (handleDisconnect t sid2 now) sid2 = some k := by
                rw [h1]; exact hk
              have h2 := disconnect_eq_no_room (handleDisconnect t sid2 now)
                sid2 now uid k hk2 hu hr
              rw [h2, h1]
              simp [removeFromWaitingPool_updateUserOnlineStatus_idem, hadel]
          | some rid =>
              cases hroom : getRoomById (closeRoom t.store rid) rid with
              | none =>
                  have h1 := disconnect_eq_room_none t sid2 now uid k rid hk hu hr hroom
                  have hk2 : sockOf (handleDisconnect t sid2 now) sid2 = some k := by
                    rw [h1]; exact hk
                  have hroom2 : getRoomById
                      (closeRoom (handleDisconnect t sid2 now).store rid) rid = none := by
                    simp only [h1]
                    rw [getRoomById_closeRoom, getRoomById_closeRoom_cleanup, hroom]
                    simp
                  have h2 := disconnect_eq_room_none (handleDisconnect t sid2 now)
                    sid2 now uid k rid hk2 hu hr hroom2
                  rw [h2, h1]
                  simp [closeRoom_cleanup_idem, hadel]
              | some room =>
                  have hact : room.active = false :=
                    closeRoom_lookup_inactive t.store rid room hroom
                  cases hp : jsPartner room.participants uid with
                  | none =>
                      have h1 := disconnect_eq_partner_none t sid2 now uid k rid room
                        hk hu hr hroom hp
                      have hk2 : sockOf (handleDisconnect t sid2 now) sid2 = some k := by
                        rw [h1]; exact hk
                      have hroom2 : getRoomById
                          (closeRoom (handleDisconnect t sid2 now).store rid) rid =
                          some room := by
                        simp only [h1]
                        rw [getRoomById_closeRoom, getRoomById_closeRoom_cleanup, hroom]
                        simp [chatRoom_flip_self room hact]
                      have h2 := disconnect_eq_partner_none (handleDisconnect t sid2 now)
                        sid2 now uid k rid room hk2 hu hr hroom2 hp
                      rw [h2, h1]
                      simp [closeRoom_cleanup_idem, hadel]
                  | some pid =>
                      have hpid := jsPartner_ne room.participants uid pid hp
                      cases hc : alookup t.clients pid with
                      | none =>
                          have h1 := disconnect_eq_client_none t sid2 now uid k rid room pid
                            hk hu hr hroom hp hc
                          have hk2 : sockOf (handleDisconnect t sid2 now) sid2 = some k := by
                            rw [h1]; exact hk
                          have hroom2 : getRoomById
                              (closeRoom (handleDisconnect t sid2 now).store rid) rid =
                              some room := by
                            simp only [h1]
                            rw [getRoomById_closeRoom, getRoomById_closeRoom_cleanup, hroom]
                            simp [chatRoom_flip_self room hact]
                          have hc2 : alookup (handleDisconnect t sid2 now).clients pid
                              = none := by
                            simp only [h1]
                            rw [alookup_adel_ne _ _ _ hpid.1]
                            exact hc
                          have h2 := disconnect_eq_client_none (handleDisconnect t sid2 now)
                            sid2 now uid k rid room pid hk2 hu hr hroom2 hp hc2
                          rw [h2, h1]
                          simp [closeRoom_cleanup_idem, hadel]
                      | some psid =>
                          cases hs : sockOf t psid with
                          | none =>
                              have h1 := disconnect_eq_sock_none t sid2 now uid k rid room
                                pid psid hk hu hr hroom hp hc hs
                              have hk2 : sockOf (handleDisconnect t sid2 now) sid2
                                  = some k := by
                                rw [h1]; exact hk
                              have hroom2 : getRoomById
                                  (closeRoom (handleDisconnect t sid2 now).store rid) rid =
                                  some room := by
                                simp only [h1]
                                rw [getRoomById_closeRoom, getRoomById_closeRoom_cleanup, hroom]
                                simp [chatRoom_flip_self room hact]
                              have hc2 : alookup (handleDisconnect t sid2 now).clients pid
                                  = some psid := by
                                simp only [h1]
                                rw [alookup_adel_ne _ _ _ hpid.1]
                                exact hc
                              have hs2 : sockOf (handleDisconnect t sid2 now) psid
                                  = none := by
                                rw [h1]; exact hs
                              have h2 := disconnect_eq_sock_none (handleDisconnect t sid2 now)
                                sid2 now uid k rid room pid psid hk2 hu hr hroom2 hp hc2 hs2
                              rw [h2, h1]
                              simp [closeRoom_cleanup_idem, hadel]
                          | some pk =>
                              by_cases hopen : pk.isOpen = true
                              · have h1 := disconnect_eq_open_partner t sid2 now uid k rid
                                  room pid psid pk hk hu hr hroom hp hc hs hopen
                                by_cases hps : psid = sid2
                                · subst hps
                                  have hkpk : pk = k := by
                                    rw [hk] at hs
                                    exact (Option.some.inj hs).symm
                                  have hk2 : sockOf (handleDisconnect t psid now) psid =
                                      some { pk with roomId := none } := by
                                    simp only [h1]
                                    simp [sockOf, alookup_aset]
                                  have hr2 : truthyStr ({ pk with roomId := none } : Sock).roomId
                                      = none := by
                                    simp [truthyStr]
                                  have h2 := disconnect_eq_no_room (handleDisconnect t psid now)
                                    psid now uid { pk with roomId := none } hk2
                                    (by rw [hkpk]; exact hu) hr2
                                  rw [h2, h1]
                                  simp [cleanup_closeRoom_cleanup, hadel]
                                · have hk2 : sockOf (handleDisconnect t sid2 now) sid2
                                      = some k := by
                                    simp only [h1]
                                    simp [sockOf, alookup_aset, hps]
                                    exact hk
                                  have hroom2 : getRoomById
                                      (closeRoom (handleDisconnect t sid2 now).store rid) rid =
                                      some room := by
                                    simp only [h1]
                                    rw [getRoomById_closeRoom, getRoomById_closeRoom_cleanup,
                                      hroom]
                                    simp [chatRoom_flip_self room hact]
                                  have hc2 : alookup (handleDisconnect t sid2 now).clients pid
                                      = some psid := by
                                    simp only [h1]
                                    rw [alookup_adel_ne _ _ _ hpid.1]
                                    exact hc
                                  have hs2 : sockOf (handleDisconnect t sid2 now) psid
                                      = some { pk with roomId := none } := by
                                    simp only [h1]
                                    simp [sockOf, alookup_aset]
                                  have h2 := disconnect_eq_open_partner
                                    (handleDisconnect t sid2 now) sid2 now uid k rid room pid
                                    psid { pk with roomId := none } hk2 hu hr hroom2 hp hc2 hs2
                                    hopen
                                  rw [h2, h1]
                                  refine ⟨?_, ?_, ?_⟩
                                  · simp [closeRoom_cleanup_idem]
                                  · show aset (aset t.socks psid { pk with roomId := none }) psid
                                        { pk with roomId := none } =
                                      aset t.socks psid { pk with roomId := none }
                                    exact aset_of_alookup_eq _ _ _ (by simp [alookup_aset])
                                  · simp [hadel]
                              · have hopen' : pk.isOpen = false := by simpa using hopen
                                have h1 := disconnect_eq_closed_partner t sid2 now uid k rid
                                  room pid psid pk hk hu hr hroom hp hc hs hopen'
                                have hk2 : sockOf (handleDisconnect t sid2 now) sid2
                                    = some k := by
                                  rw [h1]; exact hk
                                have hroom2 : getRoomById
                                    (closeRoom (handleDisconnect t sid2 now).store rid) rid =
                                    some room := by
                                  simp only [h1]
                                  rw [getRoomById_closeRoom, getRoomById_closeRoom_cleanup,
                                    hroom]
                                  simp [chatRoom_flip_self room hact]
                                have hc2 : alookup (handleDisconnect t sid2 now).clients pid
                                    = some psid := by
                                  simp only [h1]
                                  rw [alookup_adel_ne _ _ _ hpid.1]
                                  exact hc
                                have hs2 : sockOf (handleDisconnect t sid2 now) psid
                                    = some pk := by
                                  rw [h1]; exact hs
                                have h2 := disconnect_eq_closed_partner
                                  (handleDisconnect t sid2 now) sid2 now uid k rid room pid
                                  psid pk hk2 hu hr hroom2 hp hc2 hs2 hopen'
                                rw [h2, h1]
                                simp [closeRoom_cleanup_idem, hadel]
/-- C5 amended: performing `leave-waiting` twice, or `disconnect` twice (on a
client registry without duplicate keys, which is what a JS Map guarantees),
yields the same terminal shared state — storage (waiting pool, room table,
online status, messages), sockets and client registry — as performing it
once; but, per the counterexample, the second call is NOT free of visible
side effects: every `leave-waiting` answers `leave-waiting-success` and a
repeated `disconnect` re-sends `partner-left` to a still-open partner,
because the handler clears neither `ws.userId` nor `ws.roomId`. -/
theorem claim5_amended (s t : ServerState) (sid uid sid2 now : Nat)
    (hnd : (t.clients.map Prod.fst).Nodup) :
    ((handleLeaveWaiting (handleLeaveWaiting s sid uid) sid uid).store =
        (handleLeaveWaiting s sid uid).store ∧
      (handleLeaveWaiting (handleLeaveWaiting s sid uid) sid uid).socks =
        (handleLeaveWaiting s sid uid).socks ∧
      (handleLeaveWaiting (handleLeaveWaiting s sid uid) sid uid).clients =
        (handleLeaveWaiting s sid uid).clients) ∧
    ((handleDisconnect (handleDisconnect t sid2 now) sid2 now).store =
        (handleDisconnect t sid2 now).store ∧
      (handleDisconnect (handleDisconnect t sid2 now) sid2 now).socks =
        (handleDisconnect t sid2 now).socks ∧
      (handleDisconnect (handleDisconnect t sid2 now) sid2 now).clients =
        (handleDisconnect t sid2 now).clients) :=
  ⟨handleLeaveWaiting_twice s sid uid, handleDisconnect_twice t sid2 now hnd⟩
/-- Witness for C5 amended at the concrete states c5S and t6. -/
theorem claim5_witness :
    (t6.clients.map Prod.fst).Nodup ∧
    (handleLeaveWaiting (handleLeaveWaiting c5S 0 1) 0 1).store =
      (handleLeaveWaiting c5S 0 1).store ∧
    (handleDisconnect (handleDisconnect t6 0 3) 0 3).clients =
      (handleDisconnect t6 0 3).clients := by
  have h := claim5_amended c5S t6 0 1 0 3 (by decide)
  exact ⟨by decide, h.1.1, h.2.2.2⟩
theorem roomsOK_closeRoom (st : Storage) (rid : String) (h : RoomsOK st.rooms) :
    RoomsOK (closeRoom st rid).rooms := by
  intro k1 k2 r1 r2 h1 h2 hne ha1 ha2 u hu1 hu2
  have c1 : getRoomById (closeRoom st rid) k1 = some r1 := h1
  have c2 : getRoomById (closeRoom st rid) k2 = some r2 := h2
  rw [getRoomById_closeRoom] at c1 c2
  rcases Option.map_eq_some'.mp c1 with ⟨v1, hv1, hr1⟩
  rcases Option.map_eq_some'.mp c2 with ⟨v2, hv2, hr2⟩
  by_cases e1 : k1 = rid
  · rw [if_pos e1] at hr1
    rw [← hr1] at ha1
    simp at ha1
  · rw [if_neg e1] at hr1
    by_cases e2 : k2 = rid
    · rw [if_pos e2] at hr2
      rw [← hr2] at ha2
      simp at ha2
    · rw [if_neg e2] at hr2
      subst hr1
      subst hr2
      exact h k1 k2 v1 v2 hv1 hv2 hne ha1 ha2 u hu1 hu2
theorem roomsOK_createRoom (st : Storage) (a b now : Nat) (h : RoomsOK st.rooms) :
    RoomsOK (createRoom st a b now).2.rooms := by
  intro k1 k2 r1 r2 h1 h2 hne ha1 ha2 u hu1 hu2
  have c1 : getRoomById (createRoom st a b now).2 k1 = some r1 := h1
  have c2 : getRoomById (createRoom st a b now).2 k2 = some r2 := h2
  rw [createRoom_lookup] at c1 c2
  by_cases e1 : ("r" ++ toString st.nextRoomNum) = k1
  · rw [if_pos e1] at c1
    have hne2 : ¬ ("r" ++ toString st.nextRoomNum) = k2 := fun hh => hne (e1.symm.trans hh)
    rw [if_neg hne2] at c2
    rcases Option.map_eq_some'.mp c2 with ⟨v2, hv2, hr2⟩
    by_cases hcont : a ∈ v2.participants ∨ b ∈ v2.participants
    · rw [if_pos hcont] at hr2
      rw [← hr2] at ha2
      simp at ha2
    · rw [if_neg hcont] at hr2
      subst hr2
      have hr1 : r1 = (createRoom st a b now).1 := (Option.some.inj c1).symm
      rw [hr1] at hu1
      have hab : u = a ∨ u = b := by simpa [createRoom] using hu1
      push_neg at hcont
      rcases hab with rfl | rfl
      · exact hcont.1 hu2
      · exact hcont.2 hu2
  · rw [if_neg e1] at c1
    rcases Option.map_eq_some'.mp c1 with ⟨v1, hv1, hr1⟩
    by_cases hcont1 : a ∈ v1.participants ∨ b ∈ v1.participants
    · rw [if_pos hcont1] at hr1
      rw [← hr1] at ha1
      simp at ha1
    · rw [if_neg hcont1] at hr1
      subst hr1
      by_cases e2 : ("r" ++ toString st.nextRoomNum) = k2
      · rw [if_pos e2] at c2
        have hr2 : r2 = (createRoom st a b now).1 := (Option.some.inj c2).symm
        rw [hr2] at hu2
        have hab : u = a ∨ u = b := by simpa [createRoom] using hu2
        push_neg at hcont1
        rcases hab with rfl | rfl
        · exact hcont1.1 hu1
        · exact hcont1.2 hu1
      · rw [if_neg e2] at c2
        rcases Option.map_eq_some'.mp c2 with ⟨v2, hv2, hr2⟩
        by_cases hcont2 : a ∈ v2.participants ∨ b ∈ v2.participants
        · rw [if_pos hcont2] at hr2
          rw [← hr2] at ha2
          simp at ha2
        · rw [if_neg hcont2] at hr2
          subst hr2
          exact h k1 k2 v1 v2 hv1 hv2 hne ha1 ha2 u hu1 hu2
theorem processAuthMessage_rooms (s : ServerState) (sid uid now : Nat) :
    (processAuthMessage s sid uid now).store.rooms = s.store.rooms := by
  unfold processAuthMessage handleAuth
  repeat' split
  all_goals simp
theorem handleLeaveWaiting_rooms (s : ServerState) (sid uid : Nat) :
    (handleLeaveWaiting s sid uid).store.rooms = s.store.rooms := by
  unfold handleLeaveWaiting
  repeat' split
  all_goals simp [removeFromWaitingPool]
theorem handleMessage_rooms (s : ServerState) (sid uid : Nat) (rid text : String) (now : Nat) :
    (handleMessage s sid uid rid text now).store.rooms = s.store.rooms := by
  simp only [handleMessage]
  repeat' split
  all_goals simp
theorem handleSignal_rooms (s : ServerState) (sid uid : Nat) (rid sig : String) :
    (handleSignal s sid uid rid sig).store.rooms = s.store.rooms := by
  unfold handleSignal
  repeat' split
  all_goals simp
theorem matchUsers_store_eq (s : ServerState) (u1 u2 now : Nat) :
    (matchUsers s u1 u2 now).store =
      (createRoom (removeFromWaitingPool (removeFromWaitingPool s.store u1) u2) u1 u2 now).2 := by
  simp only [matchUsers]
  repeat' split
  all_goals simp
theorem roomsOK_matchUsers (s : ServerState) (u1 u2 now : Nat)
    (h : RoomsOK s.store.rooms) : RoomsOK (matchUsers s u1 u2 now).store.rooms := by
  rw [matchUsers_store_eq]
  exact roomsOK_createRoom _ u1 u2 now h
theorem roomsOK_handleJoinWaiting (s : ServerState) (sid uid pick now : Nat)
    (h : RoomsOK s.store.rooms) :
    RoomsOK (handleJoinWaiting s sid uid pick now).store.rooms := by
  cases hk : sockOf s sid with
  | none => simpa [handleJoinWaiting, hk] using h
  | some k =>
      unfold handleJoinWaiting
      simp only [hk]
      by_cases ha : wsAuthOk k uid = true
      · simp only [ha, if_true]
        split
        · exact roomsOK_matchUsers _ _ _ _ h
        · simpa using h
      · have ha' : wsAuthOk k uid = false := by simpa using ha
        simp only [ha', Bool.false_eq_true, if_false]
        simpa using h
theorem roomsOK_handleNext (s : ServerState) (sid uid pick now : Nat)
    (h : RoomsOK s.store.rooms) :
    RoomsOK (handleNext s sid uid pick now).store.rooms := by
  cases hk : sockOf s sid with
  | none => simpa [handleNext, hk] using h
  | some k =>
      unfold handleNext
      simp only [hk]
      by_cases ha : wsAuthOk k uid = true
      · simp only [ha, if_true]
        apply roomsOK_handleJoinWaiting
        cases hr : truthyStr k.roomId with
        | none => simpa using h
        | some rid =>
            simp only [hr, modifySock_store]
            have hc := roomsOK_closeRoom s.store rid h
            repeat' split
            all_goals first
              | exact hc
              | simpa using hc
      · have ha' : wsAuthOk k uid = false := by simpa using ha
        simp only [ha', Bool.false_eq_true, if_false]
        simpa using h
theorem roomsOK_handleDisconnect (s : ServerState) (sid now : Nat)
    (h : RoomsOK s.store.rooms) :
    RoomsOK (handleDisconnect s sid now).store.rooms := by
  simp only [handleDisconnect]
  repeat' split
  all_goals try simp only [modifySock_store, send_store]
  all_goals first
    | exact h
    | simpa using h
    | exact roomsOK_closeRoom _ _ (by simpa using h)
theorem step_roomsOK {s s' : ServerState} (hstep : Step s s')
    (h : RoomsOK s.store.rooms) : RoomsOK s'.store.rooms := by
  cases hstep with
  | connect sid hfresh => exact h
  | auth sid uid now =>
      intro k1 k2 r1 r2 h1 h2
      rw [processAuthMessage_rooms] at h1 h2
      exact h k1 k2 r1 r2 h1 h2
  | joinWaiting sid uid pick now => exact roomsOK_handleJoinWaiting s sid uid pick now h
  | leaveWaiting sid uid =>
      intro k1 k2 r1 r2 h1 h2
      rw [handleLeaveWaiting_rooms] at h1 h2
      exact h k1 k2 r1 r2 h1 h2
  | message sid uid rid text now =>
      intro k1 k2 r1 r2 h1 h2
      rw [handleMessage_rooms] at h1 h2
      exact h k1 k2 r1 r2 h1 h2
  | signal sid uid rid sig =>
      intro k1 k2 r1 r2 h1 h2
      rw [handleSignal_rooms] at h1 h2
      exact h k1 k2 r1 r2 h1 h2
  | next sid uid pick now => exact roomsOK_handleNext s sid uid pick now h
  | disconnect sid now => exact roomsOK_handleDisconnect s sid now h
  | closed sid now =>
      intro k1 k2 r1 r2 h1 h2
      rw [modifySock_store] at h1 h2
      exact roomsOK_handleDisconnect s sid now h k1 k2 r1 r2 h1 h2
theorem reached_roomsOK (us : List (Nat × User)) (s : ServerState)
    (h : Reached us s) : RoomsOK s.store.rooms := by
  induction h with
  | refl =>
      intro k1 k2 r1 r2 h1
      exact absurd h1 (by simp [initState, alookup])
  | tail hsteps hstep ih => exact step_roomsOK hstep ih
/-- C2: in every reachable server state no user identity is a participant of
two distinct rooms whose active flags are both true; and `createRoom` first
sets inactive every pre-existing room containing either of the two users
(every room other than the newly allocated one that contains one of them is
inactive afterwards, with its participants preserved). -/
theorem claim2_rooms_exclusive (us : List (Nat × User)) (s : ServerState)
    (h : Reached us s) :
    RoomsOK s.store.rooms ∧
    ∀ (st : Storage) (a b now : Nat) (key : String) (r : ChatRoom),
      getRoomById st key = some r → (a ∈ r.participants ∨ b ∈ r.participants) →
      key ≠ (createRoom st a b now).1.id →
      getRoomById (createRoom st a b now).2 key = some { r with active := false } := by
  refine ⟨reached_roomsOK us s h, ?_⟩
  intro st a b now key r hr hab hkey
  rw [createRoom_lookup]
  have hne : ¬ ("r" ++ toString st.nextRoomNum) = key := by
    intro hh
    exact hkey (hh.symm.trans (by simp [createRoom]))
  rw [if_neg hne, hr]
  simp [hab]
/-- Witness for C2: the invariant holds at the initial state (reached by the
empty transition sequence). -/
theorem claim2_witness :
    RoomsOK (initState demoUsers).store.rooms ∧
    ∀ (st : Storage) (a b now : Nat) (key : String) (r : ChatRoom),
      getRoomById st key = some r → (a ∈ r.participants ∨ b ∈ r.participants) →
      key ≠ (createRoom st a b now).1.id →
      getRoomById (createRoom st a b now).2 key = some { r with active := false } :=
  claim2_rooms_exclusive demoUsers (initState demoUsers) Relation.ReflTransGen.refl

end StudentChatter
